import Mathlib

/-!
Verification development for the Zygn backend (document agreement workflow).

The definitions below are a shallow embedding of the route handlers in
`app/documents/routes.py`, `app/payments/routes.py`, `app/wallet/routes.py`
and of `app/utils/blockchain.py`.  Conventions used throughout:

* MongoDB documents become Lean structures; collections become lists, with
  `find_one` modelled as `List.find?` (first match), `insert_one` as list
  append, and `update_one` as replacement of the first matching element.
* Python `float` money amounts and percentages are modelled as exact
  rationals `ℚ`; `datetime` values are modelled as integer epoch seconds
  (so `timedelta.days` becomes flooring division `Int.fdiv _ 86400`), and
  opaque "now" timestamps are passed in as explicit `Nat` parameters.
* `HTTPException` raises are modelled as `Except.error`: the handler raises
  before any database write, so an error result means the stored state is
  unchanged.
* External collaborators (file storage, user lookup by char_id, PDF
  composition) are out of scope per the route boundaries: an uploaded file
  is represented by the presence flag or path string the route stores.
-/

namespace Zygn

/-- Result type for route handlers: the HTTP error classes raised by the
routes (`HTTPException` with status 400 / 403 / 404 and a detail string). -/
inductive HErr where
  | badRequest (detail : String)
  | forbidden (detail : String)
  | notFound (detail : String)
deriving Repr, DecidableEq

/-- One value of the `user_approvals` map of a document:
`{approved: bool, approved_at: datetime|None, is_primary: bool}`.
`isPrimary = none` models a MongoDB subdocument in which the `is_primary`
field is absent (as happens when `$set user_approvals.<uid>.approved`
creates the subdocument from scratch); no route ever reads `is_primary`. -/
structure Approval where
  approved : Bool
  approvedAt : Option Nat
  isPrimary : Option Bool
deriving Repr, DecidableEq

/-- The `documents` collection record (`DocumentInDB`), restricted to the
fields the modelled routes read or write.  `isLocked` is `false` for a
freshly created document (the `is_locked` field is absent until finalize
sets it, and `document.get("is_locked")` is then falsy). -/
structure Document where
  idStr : String
  documentCode : String
  name : String
  involvedUsers : List String
  primaryUser : String
  status : String
  isLocked : Bool
  userApprovals : List (String × Approval)
  uploadRawDocs : List String
  finalDocs : List String
  dailyRate : ℚ
  totalDays : Int
  totalAmount : ℚ
deriving Repr, DecidableEq

/-- MongoDB `$addToSet`: append the element unless it is already present. -/
def addToSet (l : List String) (x : String) : List String :=
  if x ∈ l then l else l ++ [x]

/-- MongoDB `$set user_approvals.<uid>` with a whole subdocument: replace
the entry for `uid` if present (first occurrence), else create it. -/
def setApproval (uid : String) (a : Approval) :
    List (String × Approval) → List (String × Approval)
  | [] => [(uid, a)]
  | (k, v) :: rest =>
    if k = uid then (uid, a) :: rest else (k, v) :: setApproval uid a rest

/-- MongoDB `$set user_approvals.<uid>.approved / .approved_at`: update the
two fields of an existing entry, or create the entry if absent (in which
case `is_primary` is not written, modelled by `isPrimary := none`). -/
def approveEntry (uid : String) (now : Nat) :
    List (String × Approval) → List (String × Approval)
  | [] => [(uid, { approved := true, approvedAt := some now, isPrimary := none })]
  | (k, v) :: rest =>
    if k = uid then (k, { v with approved := true, approvedAt := some now }) :: rest
    else (k, v) :: approveEntry uid now rest

/-- Read a user's entry of the `user_approvals` map. -/
def getApproval (uid : String) (m : List (String × Approval)) : Option Approval :=
  (m.find? (fun p => p.1 == uid)).map (fun p => p.2)

/-- Python's `all(approval.get("approved", False) for approval in
user_approvals.values())`. -/
def allApproved (m : List (String × Approval)) : Bool :=
  m.all (fun p => p.2.approved)

/-- Day count computed by `create_document` (routes.py lines 124-135):
`max(1, (end - start).days + 1)` when both dates are present, else 1.
Dates are epoch seconds; `timedelta.days` floors, hence `Int.fdiv`. -/
def computeTotalDays (startDate endDate : Option Int) : Int :=
  match startDate, endDate with
  | some sd, some ed => max 1 (Int.fdiv (ed - sd) 86400 + 1)
  | _, _ => 1

/-- The document record built by `create_document` (routes.py lines
229-266): creator is the sole involved user and the auto-approved primary,
status `draft`, pricing snapshot `dailyRate` (resolved from the active
pricing config by the caller), `total_amount = daily_rate * total_days`. -/
def createDocument (creator docId code name : String)
    (startDate endDate : Option Int) (dailyRate : ℚ) (now : Nat)
    (rawDocs : List String) : Document :=
  let totalDays := computeTotalDays startDate endDate
  { idStr := docId
    documentCode := code
    name := name
    involvedUsers := [creator]
    primaryUser := creator
    status := "draft"
    isLocked := false
    userApprovals := [(creator, { approved := true, approvedAt := some now, isPrimary := some true })]
    uploadRawDocs := rawDocs
    finalDocs := []
    dailyRate := dailyRate
    totalDays := totalDays
    totalAmount := dailyRate * (totalDays : ℚ) }

/-- Verification-file guard of `join_document` (routes.py lines 333-347):
the error messages collected for the missing required files. -/
def joinVerificationErrors (hasProfilePic hasSign hasEye : Bool) : List String :=
  (if hasProfilePic then [] else ["Profile picture is required for document joining"]) ++
  (if hasSign then [] else ["Signature is required for document joining"]) ++
  (if hasEye then [] else ["Eye scan is required for document joining"])

/-- POST `/join` (routes.py lines 302-405), from the point the document is
found by code.  Note: there is no finalized/locked guard on this route.
The uploaded verification files themselves go to the external file store;
only their presence flags matter to the guards. -/
def joinDocument (doc : Document) (user : String)
    (hasProfilePic hasSign hasEye : Bool) : Except HErr Document :=
  if joinVerificationErrors hasProfilePic hasSign hasEye ≠ [] then
    .error (.badRequest ("Verification documents required: " ++
      String.intercalate ", " (joinVerificationErrors hasProfilePic hasSign hasEye)))
  else if user ∈ doc.involvedUsers then
    .error (.badRequest "You are already part of this document")
  else
    .ok { doc with
      involvedUsers := addToSet doc.involvedUsers user
      status := "pending_approval"
      userApprovals := setApproval user
        { approved := false, approvedAt := none, isPrimary := some false }
        doc.userApprovals }

/-- POST `/{document_id}/add-user` (routes.py lines 473-547), with the
target user already resolved from their char_id.  This route blocks edits
after finalization. -/
def addUserToDocument (doc : Document) (caller target : String) :
    Except HErr Document :=
  if doc.status = "finalized" ∨ doc.isLocked = true then
    .error (.badRequest "Document is finalized and cannot be edited")
  else if doc.primaryUser ≠ caller then
    .error (.forbidden "Only primary user can add users")
  else if target ∈ doc.involvedUsers then
    .error (.badRequest "User is already part of this document")
  else
    .ok { doc with involvedUsers := addToSet doc.involvedUsers target }

/-- POST `/{document_id}/invite-user` (routes.py lines 719-787), with the
target resolved from their char_id.  Note: no finalized/locked guard, and
no approval-ledger entry is created for the invitee. -/
def inviteUserToDocument (doc : Document) (caller target : String) :
    Except HErr Document :=
  if doc.primaryUser ≠ caller then
    .error (.forbidden "Only primary user can invite users")
  else if target ∈ doc.involvedUsers then
    .error (.badRequest "User is already part of this document")
  else
    .ok { doc with involvedUsers := addToSet doc.involvedUsers target }

/-- PUT `/{document_id}/approve/{user_id}` (routes.py lines 407-470), the
earlier route revision: after the primary-user check it unconditionally
sets `status := "approved"`; it never touches `user_approvals` and has no
finalized/locked guard.  The `target` path parameter is ignored. -/
def approveUserLegacy (doc : Document) (caller target : String) :
    Except HErr Document :=
  if doc.primaryUser ≠ caller then
    .error (.forbidden "Only primary user can approve join requests")
  else
    .ok { doc with status := "approved" }

/-- PUT `/{document_id}/approve-user/{user_id}` (routes.py lines 549-643):
flips the target's ledger entry to approved with a timestamp, re-reads the
document and promotes the status to `approved` exactly when every ledger
entry is approved. -/
def approveUser (doc : Document) (caller target : String) (now : Nat) :
    Except HErr Document :=
  if doc.status = "finalized" ∨ doc.isLocked = true then
    .error (.badRequest "Document is finalized and cannot be edited")
  else if doc.primaryUser ≠ caller then
    .error (.forbidden "Only primary user can approve join requests")
  else if target ∉ doc.involvedUsers then
    .error (.badRequest "User is not in the document's involved users list")
  else
    let approvals := approveEntry target now doc.userApprovals
    if allApproved approvals then
      .ok { doc with userApprovals := approvals, status := "approved" }
    else
      .ok { doc with userApprovals := approvals }

/-- DELETE `/{document_id}/remove-user/{user_id}` (routes.py lines
645-718).  Only `involved_users` is pulled; `user_approvals` is untouched. -/
def removeUserDelete (doc : Document) (caller target : String) :
    Except HErr Document :=
  if doc.status = "finalized" ∨ doc.isLocked = true then
    .error (.badRequest "Document is finalized and cannot be edited")
  else if doc.primaryUser ≠ caller then
    .error (.forbidden "Only primary user can remove users")
  else if target = doc.primaryUser then
    .error (.badRequest "Cannot remove the primary user from the document")
  else if target ∉ doc.involvedUsers then
    .error (.badRequest "User is not in the document's involved users list")
  else
    .ok { doc with involvedUsers := doc.involvedUsers.filter (fun x => x != target) }

/-- PUT `/{document_id}/remove-user/{user_id}` (routes.py lines 907-974):
like the DELETE variant but with no finalized/locked guard. -/
def removeUserPut (doc : Document) (caller target : String) :
    Except HErr Document :=
  if doc.primaryUser ≠ caller then
    .error (.forbidden "Only primary user can remove users")
  else if target = doc.primaryUser then
    .error (.badRequest "Cannot remove the primary user from the document")
  else if target ∉ doc.involvedUsers then
    .error (.badRequest "User is not in the document's involved users list")
  else
    .ok { doc with involvedUsers := doc.involvedUsers.filter (fun x => x != target) }

/-- PUT `/{document_id}/reject-user/{user_id}` (routes.py lines 845-905):
pulls the target from `involved_users`.  Note: no finalized/locked guard,
no target-is-not-primary guard, and `user_approvals` is untouched. -/
def rejectUser (doc : Document) (caller target : String) :
    Except HErr Document :=
  if doc.primaryUser ≠ caller then
    .error (.forbidden "Only primary user can reject join requests")
  else if target ∉ doc.involvedUsers then
    .error (.badRequest "User is not in the document's involved users list")
  else
    .ok { doc with involvedUsers := doc.involvedUsers.filter (fun x => x != target) }

/-- A finalized, locked two-party agreement, as `finalize_document` leaves
it (status `finalized`, `is_locked` true, final docs set). -/
def lockedDoc : Document :=
  { idStr := "doc1"
    documentCode := "CODE1234"
    name := "Rental Agreement"
    involvedUsers := ["A", "B"]
    primaryUser := "A"
    status := "finalized"
    isLocked := true
    userApprovals :=
      [("A", { approved := true, approvedAt := some 0, isPrimary := some true }),
       ("B", { approved := true, approvedAt := some 1, isPrimary := some false })]
    uploadRawDocs := ["/uploads/documents/raw.pdf"]
    finalDocs := ["/uploads/documents/final.pdf"]
    dailyRate := 1
    totalDays := 1
    totalAmount := 1 }

/-- C2: a finalized (lock=true) agreement does NOT reject every mutating
operation.  On the locked document, join-by-code succeeds and mutates
membership, the approval ledger and even the status; invite, reject-user
and the PUT remove-user variant also succeed and mutate membership.  Only
add-user (shown last) enforces the finalized guard.  This exhibits the
code bug behind the claim. -/
theorem c2_lock_not_enforced :
    lockedDoc.status = "finalized" ∧ lockedDoc.isLocked = true ∧
    joinDocument lockedDoc "C" true true true =
      Except.ok { lockedDoc with
        involvedUsers := ["A", "B", "C"]
        status := "pending_approval"
        userApprovals := lockedDoc.userApprovals ++
          [("C", { approved := false, approvedAt := none, isPrimary := some false })] } ∧
    inviteUserToDocument lockedDoc "A" "C" =
      Except.ok { lockedDoc with involvedUsers := ["A", "B", "C"] } ∧
    rejectUser lockedDoc "A" "B" =
      Except.ok { lockedDoc with involvedUsers := ["A"] } ∧
    removeUserPut lockedDoc "A" "B" =
      Except.ok { lockedDoc with involvedUsers := ["A"] } ∧
    addUserToDocument lockedDoc "A" "C" =
      Except.error (.badRequest "Document is finalized and cannot be edited") :=
  ⟨rfl, rfl, rfl, rfl, rfl, rfl, rfl⟩

/-- A pending two-party agreement with the primary auto-approved and the
joiner not yet approved. -/
def pendingDoc : Document :=
  { idStr := "doc2"
    documentCode := "CODE5678"
    name := "Lease"
    involvedUsers := ["A", "B"]
    primaryUser := "A"
    status := "pending_approval"
    isLocked := false
    userApprovals :=
      [("A", { approved := true, approvedAt := some 0, isPrimary := some true }),
       ("B", { approved := false, approvedAt := none, isPrimary := some false })]
    uploadRawDocs := ["/uploads/documents/raw.pdf"]
    finalDocs := []
    dailyRate := 1
    totalDays := 1
    totalAmount := 1 }

/-- C3: the invariant `primary_user ∈ involved_users` is violated by the
reject-user route: it has no target-is-not-primary guard, so the primary
rejecting their own id is pulled from `involved_users`. -/
theorem c3_primary_removable_by_reject :
    rejectUser pendingDoc "A" "A" =
      Except.ok { pendingDoc with involvedUsers := ["B"] } ∧
    ({ pendingDoc with involvedUsers := ["B"] } : Document).primaryUser ∉
      ({ pendingDoc with involvedUsers := ["B"] } : Document).involvedUsers :=
  ⟨rfl, by decide⟩

/-- C9: removing a member removes them from `involved_users` but does NOT
drop their approval-ledger entry: neither remove route touches
`user_approvals`, so B's unapproved entry survives (and keeps
`allApproved` false forever). -/
theorem c9_remove_keeps_ledger_entry :
    removeUserDelete pendingDoc "A" "B" =
      Except.ok { pendingDoc with involvedUsers := ["A"] } ∧
    removeUserPut pendingDoc "A" "B" =
      Except.ok { pendingDoc with involvedUsers := ["A"] } ∧
    getApproval "B" ({ pendingDoc with involvedUsers := ["A"] } : Document).userApprovals =
      some { approved := false, approvedAt := none, isPrimary := some false } ∧
    allApproved ({ pendingDoc with involvedUsers := ["A"] } : Document).userApprovals = false :=
  ⟨rfl, rfl, rfl, rfl⟩

/-- C8: at creation the day count is derived from the optional dates with
a minimum of 1 (and is 1 when either date is absent), the total amount is
the snapshot daily rate times the day count, and the 2-day span scenario
(start = D, end = D + 1 day, rate 5) yields total_days = 2 and
total_amount = 10. -/
theorem c8_creation_totals :
    (∀ creator docId code name s e rate now files,
      1 ≤ (createDocument creator docId code name s e rate now files).totalDays ∧
      (createDocument creator docId code name s e rate now files).totalAmount =
        rate * ((createDocument creator docId code name s e rate now files).totalDays : ℚ)) ∧
    (∀ creator docId code name e rate now files,
      (createDocument creator docId code name none e rate now files).totalDays = 1) ∧
    (∀ creator docId code name s rate now files,
      (createDocument creator docId code name s none rate now files).totalDays = 1) ∧
    (∀ creator docId code name d rate now files,
      (createDocument creator docId code name (some d) (some (d + 86400)) rate now files).totalDays = 2) ∧
    (createDocument "A" "doc1" "CODE1234" "n" (some 0) (some 86400) 5 0 ["f"]).totalDays = 2 ∧
    (createDocument "A" "doc1" "CODE1234" "n" (some 0) (some 86400) 5 0 ["f"]).totalAmount = 10 := by
  refine ⟨?_, ?_, ?_, ?_, by decide, by norm_num [createDocument, computeTotalDays]⟩
  · intro creator docId code name s e rate now files
    constructor
    · show 1 ≤ computeTotalDays s e
      cases s with
      | none => simp [computeTotalDays]
      | some sd =>
        cases e with
        | none => simp [computeTotalDays]
        | some ed => exact le_max_left _ _
    · rfl
  · intro creator docId code name e rate now files
    cases e <;> rfl
  · intro creator docId code name s rate now files
    cases s <;> rfl
  · intro creator docId code name d rate now files
    show computeTotalDays (some d) (some (d + 86400)) = 2
    simp [computeTotalDays]

/-- Helper lemma: after `approveEntry uid now m`, the entry for `uid` exists,
is approved, and carries the timestamp `now`. -/
theorem getApproval_approveEntry (uid : String) (now : Nat)
    (m : List (String × Approval)) :
    ∃ a, getApproval uid (approveEntry uid now m) = some a ∧
      a.approved = true ∧ a.approvedAt = some now := by
  induction m with
  | nil =>
    refine ⟨{ approved := true, approvedAt := some now, isPrimary := none }, ?_, rfl, rfl⟩
    simp [approveEntry, getApproval]
  | cons kv rest ih =>
    obtain ⟨k, v⟩ := kv
    by_cases h : k = uid
    · subst h
      exact ⟨{ v with approved := true, approvedAt := some now },
        by simp [approveEntry, getApproval], rfl, rfl⟩
    · obtain ⟨a, ha, h1, h2⟩ := ih
      refine ⟨a, ?_, h1, h2⟩
      simpa [approveEntry, getApproval, h] using ha

/-- C4 counterexample: on an agreement in `pending_approval` with B still
unapproved, the (still registered) legacy approve route flips the status
to `approved` unconditionally, without touching B's ledger entry — so the
claim as stated over "the primary approves a member" fails. -/
theorem c4_legacy_approve_ignores_ledger :
    pendingDoc.status = "pending_approval" ∧
    approveUserLegacy pendingDoc "A" "B" =
      Except.ok { pendingDoc with status := "approved" } ∧
    getApproval "B" ({ pendingDoc with status := "approved" } : Document).userApprovals =
      some { approved := false, approvedAt := none, isPrimary := some false } ∧
    allApproved ({ pendingDoc with status := "approved" } : Document).userApprovals = false :=
  ⟨rfl, rfl, rfl, rfl⟩

/-- C4 (amended): via the `approve-user` route, approving a member of a
pending_approval agreement sets their ledger entry approved with a
timestamp, and the status becomes `approved` iff every ledger entry is
approved (else it stays `pending_approval`). -/
theorem c4_approve_user_route (doc : Document) (target : String) (now : Nat)
    (hstatus : doc.status = "pending_approval")
    (hlock : doc.isLocked = false)
    (hmem : target ∈ doc.involvedUsers) :
    ∃ d2, approveUser doc doc.primaryUser target now = Except.ok d2 ∧
      (∃ a, getApproval target d2.userApprovals = some a ∧
        a.approved = true ∧ a.approvedAt = some now) ∧
      (d2.status = "approved" ↔ allApproved d2.userApprovals = true) ∧
      (allApproved d2.userApprovals = false → d2.status = "pending_approval") ∧
      d2.involvedUsers = doc.involvedUsers := by
  have hguard : ¬ (doc.status = "finalized" ∨ doc.isLocked = true) := by
    rintro (h | h)
    · rw [hstatus] at h; exact absurd h (by decide)
    · rw [hlock] at h; exact absurd h (by decide)
  unfold approveUser
  rw [if_neg hguard, if_neg (fun h => h rfl), if_neg (fun h => h hmem)]
  by_cases hall : allApproved (approveEntry target now doc.userApprovals) = true
  · rw [if_pos hall]
    refine ⟨_, rfl, getApproval_approveEntry target now doc.userApprovals, ?_, ?_, rfl⟩
    · exact ⟨fun _ => hall, fun _ => rfl⟩
    · intro h; rw [hall] at h; cases h
  · rw [if_neg hall]
    refine ⟨_, rfl, getApproval_approveEntry target now doc.userApprovals, ?_, ?_, rfl⟩
    · constructor
      · intro h; rw [hstatus] at h; exact absurd h (by decide)
      · intro h; exact absurd h hall
    · intro _; exact hstatus

/-- Witness for `c4_approve_user_route` at the concrete pending document:
approving B (the only unapproved member) flips the status to approved. -/
theorem c4_approve_user_route_witness :
    pendingDoc.status = "pending_approval" ∧ pendingDoc.isLocked = false ∧
    "B" ∈ pendingDoc.involvedUsers ∧
    (∃ d2, approveUser pendingDoc pendingDoc.primaryUser "B" 7 = Except.ok d2 ∧
      (∃ a, getApproval "B" d2.userApprovals = some a ∧
        a.approved = true ∧ a.approvedAt = some 7) ∧
      (d2.status = "approved" ↔ allApproved d2.userApprovals = true) ∧
      (allApproved d2.userApprovals = false → d2.status = "pending_approval") ∧
      d2.involvedUsers = pendingDoc.involvedUsers) :=
  ⟨rfl, rfl, by decide, c4_approve_user_route pendingDoc "B" 7 rfl rfl (by decide)⟩

/-! ## Payments, wallets, transactions (`app/payments/routes.py`, `app/wallet/routes.py`) -/

/-- The `wallets` collection record (`WalletInDB`). -/
structure Wallet where
  userId : String
  balance : ℚ
  createdAt : Nat
  updatedAt : Nat
deriving Repr, DecidableEq

/-- The `payments` collection record (`PaymentInDB`); `pid` is the stringified
MongoDB `_id`. -/
structure Payment where
  pid : String
  userId : String
  documentId : String
  amount : ℚ
  durationDays : Nat
  splitPercentage : Option ℚ
  status : String
  transactionId : Option String
  createdAt : Nat
  updatedAt : Nat
deriving Repr, DecidableEq

/-- The append-only `transactions` collection record. -/
structure Txn where
  userId : String
  type : String
  amount : ℚ
  description : String
  paymentId : Option String
  paymentReceipt : Option String
  createdAt : Nat
deriving Repr, DecidableEq

/-- One entry of a payment distribution (`PaymentDistribution`). -/
structure DistEntry where
  userId : String
  percentage : ℚ
  amount : ℚ
deriving Repr, DecidableEq

/-- The `payment_distributions` collection record (unique key: document id). -/
structure Distribution where
  documentId : String
  documentCode : String
  totalAmount : ℚ
  durationDays : Nat
  distributions : List DistEntry
  createdAt : Nat
  updatedAt : Nat
deriving Repr, DecidableEq

/-- The persistent store touched by the payment and wallet routes. -/
structure PayState where
  wallets : List Wallet
  payments : List Payment
  transactions : List Txn
  distributions : List Distribution
deriving Repr, DecidableEq

/-- Errors raised by `make_document_payment` and friends.  The
`insufficientFunds` constructor carries the two amounts the route reports
in its detail string (`Required: ...` and `Available: ...`). -/
inductive PayErr where
  | accessDenied
  | distributionNotSetup
  | noUserDistribution
  | alreadyCompleted
  | insufficientFunds (required available : ℚ)
deriving Repr, DecidableEq

/-- Errors raised by `setup_payment_distribution`. -/
inductive SetupErr where
  | forbidden
  | invalidPercentage (total : ℚ)
  | userNotInvolved
deriving Repr, DecidableEq

/-- MongoDB `update_one({"user_id": u}, {"$inc": {"balance": delta}, "$set":
{"updated_at": now}})`: atomic increment on the first matching wallet. -/
def incWallet (u : String) (delta : ℚ) (now : Nat) : List Wallet → List Wallet
  | [] => []
  | w :: ws =>
    if w.userId = u then { w with balance := w.balance + delta, updatedAt := now } :: ws
    else w :: incWallet u delta now ws

/-- MongoDB `update_one({"_id": pid}, {"$set": payment_data})`: replace the
first payment row carrying that id. -/
def replacePaymentById (pid : String) (np : Payment) : List Payment → List Payment
  | [] => []
  | p :: ps => if p.pid = pid then np :: ps else p :: replacePaymentById pid np ps

/-- The balance `get_wallet_balance` would report (0 for a not yet created
wallet, which the route lazily creates with balance 0). -/
def walletBalance (s : PayState) (u : String) : ℚ :=
  match s.wallets.find? (fun x => x.userId == u) with
  | some w => w.balance
  | none => 0

/-- Decimal rendering of a rational amount used inside transaction
descriptions (stands in for Python float formatting; no claim inspects the
digits). -/
def ratStr (q : ℚ) : String :=
  if q.den = 1 then toString q.num else toString q.num ++ "/" ++ toString q.den

/-- Description string of the debit transaction written by
`make_document_payment`. -/
def payDescription (code : String) (percentage : ℚ) : String :=
  "Payment for document " ++ code ++ " - " ++ ratStr percentage ++ "%"

/-- POST `/wallet/add-funds` (wallet/routes.py lines 44-82).  There is no
validation on `amount` (the route takes the raw form field; the bounded
`AddFundsRequest` model is unused), so any amount — including a negative
one — is credited, and one `credit` transaction is appended. -/
def addFunds (u : String) (amount : ℚ) (receipt : Option String) (now : Nat)
    (s : PayState) : PayState :=
  let wallets2 :=
    match s.wallets.find? (fun x => x.userId == u) with
    | none => s.wallets ++ [{ userId := u, balance := amount, createdAt := now, updatedAt := now }]
    | some _ => incWallet u amount now s.wallets
  { s with
    wallets := wallets2
    transactions := s.transactions ++
      [{ userId := u, type := "credit", amount := amount,
         description := "Funds added to wallet", paymentId := none,
         paymentReceipt := receipt, createdAt := now }] }

/-- Payment id used by `make_document_payment`: the existing row's id when
upserting over it, else the id of the freshly inserted row. -/
def payPid (nid : String) (existing : Option Payment) : String :=
  match existing with
  | some p0 => p0.pid
  | none => nid

/-- The `payment_data` row written by `make_document_payment` (update keeps
the original `created_at`; insert stamps it `now`). -/
def payNewPayment (doc : Document) (u tid nid : String) (now : Nat)
    (pd : Distribution) (entry : DistEntry) (existing : Option Payment) : Payment :=
  { pid := payPid nid existing
    userId := u
    documentId := doc.idStr
    amount := entry.amount
    durationDays := pd.durationDays
    splitPercentage := some entry.percentage
    status := "completed"
    transactionId := some tid
    createdAt := match existing with | some p0 => p0.createdAt | none => now
    updatedAt := now }

/-- State after the successful tail of `make_document_payment`: upsert the
payment row as completed, atomically decrement the wallet by the entry
amount, and append one debit transaction referencing the payment. -/
def paySuccessState (doc : Document) (u tid nid : String) (now : Nat) (s : PayState)
    (pd : Distribution) (entry : DistEntry) (existing : Option Payment) : PayState :=
  { s with
    payments :=
      match existing with
      | some p0 => replacePaymentById p0.pid (payNewPayment doc u tid nid now pd entry existing) s.payments
      | none => s.payments ++ [payNewPayment doc u tid nid now pd entry existing]
    wallets := incWallet u (-entry.amount) now s.wallets
    transactions := s.transactions ++
      [{ userId := u, type := "payment", amount := -entry.amount,
         description := payDescription doc.documentCode entry.percentage,
         paymentId := some (payPid nid existing), paymentReceipt := none,
         createdAt := now }] }

/-- Wallet check and writes of `make_document_payment` (payments/routes.py
lines 474-534), after the duplicate-payment guard. -/
def payCompute (doc : Document) (u tid nid : String) (now : Nat) (s : PayState)
    (pd : Distribution) (entry : DistEntry) (existing : Option Payment) :
    Except PayErr PayState :=
  match s.wallets.find? (fun x => x.userId == u) with
  | none => .error (.insufficientFunds entry.amount 0)
  | some w =>
    if w.balance < entry.amount then .error (.insufficientFunds entry.amount w.balance)
    else .ok (paySuccessState doc u tid nid now s pd entry existing)

/-- POST `/payments/document/{document_id}/pay` (payments/routes.py lines
405-534), from the point the document is in hand.  `tid` and `nid` stand
for the generated uuid and the id MongoDB would assign to an inserted row. -/
def makeDocumentPayment (doc : Document) (u tid nid : String) (now : Nat)
    (s : PayState) : Except PayErr PayState :=
  if u ∉ doc.involvedUsers then .error .accessDenied
  else
    match s.distributions.find? (fun d => d.documentId == doc.idStr) with
    | none => .error .distributionNotSetup
    | some pd =>
      match pd.distributions.find? (fun e => e.userId == u) with
      | none => .error .noUserDistribution
      | some entry =>
        match s.payments.find? (fun p => p.documentId == doc.idStr && p.userId == u) with
        | some p0 =>
          if p0.status = "completed" then .error .alreadyCompleted
          else payCompute doc u tid nid now s pd entry (some p0)
        | none => payCompute doc u tid nid now s pd entry none

/-- MongoDB upsert on the unique key `document_id`: replace the first
matching distribution, or append if none matches. -/
def upsertDistribution (did : String) (nd : Distribution) :
    List Distribution → List Distribution
  | [] => [nd]
  | d :: ds => if d.documentId = did then nd :: ds else d :: upsertDistribution did nd ds

/-- POST `/payments/document/{document_id}/setup-distribution`
(payments/routes.py lines 224-319), from the point the document is in
hand: primary-only; rejects when the percentages sum more than 0.01 away
from 100, or when some listed user is not involved; otherwise upserts the
distribution for the document. -/
def setupPaymentDistribution (doc : Document) (caller : String)
    (entries : List DistEntry) (totalAmount : ℚ) (durationDays now : Nat)
    (s : PayState) : Except SetupErr PayState :=
  if doc.primaryUser ≠ caller then .error .forbidden
  else
    if 1 / 100 < |(entries.map (fun e => e.percentage)).sum - 100| then
      .error (.invalidPercentage ((entries.map (fun e => e.percentage)).sum))
    else if ¬ (∀ e ∈ entries, e.userId ∈ doc.involvedUsers) then
      .error .userNotInvolved
    else
      let nd : Distribution :=
        { documentId := doc.idStr
          documentCode := doc.documentCode
          totalAmount := totalAmount
          durationDays := durationDays
          distributions := entries
          createdAt := now
          updatedAt := now }
      .ok { s with distributions := upsertDistribution doc.idStr nd s.distributions }

/-- Helper lemma: `find?` on a cons whose head satisfies the predicate. -/
theorem find?_cons_pos {α : Type} (p : α → Bool) (a : α) (l : List α)
    (h : p a = true) : (a :: l).find? p = some a := by
  simp [List.find?, h]

/-- Helper lemma: `find?` on a cons whose head fails the predicate. -/
theorem find?_cons_neg {α : Type} (p : α → Bool) (a : α) (l : List α)
    (h : p a = false) : (a :: l).find? p = l.find? p := by
  simp [List.find?, h]

/-- Helper lemma: `find?` skips a prefix in which nothing matches. -/
theorem find?_append_of_none {α : Type} (p : α → Bool) (l1 l2 : List α)
    (h : l1.find? p = none) : (l1 ++ l2).find? p = l2.find? p := by
  induction l1 with
  | nil => rfl
  | cons a l ih =>
    cases hpa : p a with
    | true =>
      rw [find?_cons_pos p a l hpa] at h
      cases h
    | false =>
      rw [find?_cons_neg p a l hpa] at h
      rw [List.cons_append, find?_cons_neg p a (l ++ l2) hpa]
      exact ih h

/-- Helper lemma: after an atomic `$inc` on the first wallet matching the
user, `find?` for that user returns the incremented wallet. -/
theorem find?_incWallet (u : String) (delta : ℚ) (now : Nat)
    (ws : List Wallet) (w : Wallet)
    (h : ws.find? (fun x => x.userId == u) = some w) :
    (incWallet u delta now ws).find? (fun x => x.userId == u) =
      some { w with balance := w.balance + delta, updatedAt := now } := by
  induction ws with
  | nil => cases h
  | cons w0 ws ih =>
    by_cases h0 : w0.userId = u
    · have hp : ((fun x : Wallet => x.userId == u) w0) = true := beq_iff_eq.mpr h0
      rw [find?_cons_pos (fun x : Wallet => x.userId == u) w0 ws hp] at h
      injection h with h
      subst h
      rw [incWallet, if_pos h0]
      exact find?_cons_pos (fun x : Wallet => x.userId == u)
        { w0 with balance := w0.balance + delta, updatedAt := now } ws hp
    · have hp : ((fun x : Wallet => x.userId == u) w0) = false := by simp [h0]
      rw [find?_cons_neg (fun x : Wallet => x.userId == u) w0 ws hp] at h
      rw [incWallet, if_neg h0,
        find?_cons_neg (fun x : Wallet => x.userId == u) w0 (incWallet u delta now ws) hp]
      exact ih h

/-- Helper lemma: replacing (by id) the first row that `find?` returned,
with a row that still satisfies the search predicate, makes `find?` return
the replacement, provided row ids are unique. -/
theorem find?_replacePaymentById (q : Payment → Bool) (ps : List Payment)
    (p0 np : Payment) (hfind : ps.find? q = some p0) (hnp : q np = true)
    (hnodup : (ps.map (fun p => p.pid)).Nodup) :
    (replacePaymentById p0.pid np ps).find? q = some np := by
  induction ps with
  | nil => cases hfind
  | cons a l ih =>
    cases ha : q a with
    | true =>
      rw [find?_cons_pos q a l ha] at hfind
      injection hfind with hfind
      subst hfind
      rw [replacePaymentById, if_pos rfl]
      exact find?_cons_pos q np l hnp
    | false =>
      rw [find?_cons_neg q a l ha] at hfind
      have hmem : p0 ∈ l := List.mem_of_find?_eq_some hfind
      simp only [List.map_cons, List.nodup_cons] at hnodup
      have hpid : ¬ (a.pid = p0.pid) := by
        intro he
        exact hnodup.1 (he ▸ List.mem_map_of_mem (fun p => p.pid) hmem)
      rw [replacePaymentById, if_neg hpid,
        find?_cons_neg q a (replacePaymentById p0.pid np l) ha]
      exact ih hfind hnodup.2

/-- C10: `add_funds` places no bound on its amount: for every rational
amount (negative included) the call succeeds, the caller's balance moves
by exactly that amount, and exactly one `credit` transaction carrying that
amount is appended; nothing else changes. -/
theorem c10_add_funds_unbounded :
    ∀ (u : String) (amount : ℚ) (receipt : Option String) (now : Nat) (s : PayState),
      walletBalance (addFunds u amount receipt now s) u = walletBalance s u + amount ∧
      (addFunds u amount receipt now s).transactions =
        s.transactions ++
          [{ userId := u, type := "credit", amount := amount,
             description := "Funds added to wallet", paymentId := none,
             paymentReceipt := receipt, createdAt := now }] ∧
      (addFunds u amount receipt now s).payments = s.payments ∧
      (addFunds u amount receipt now s).distributions = s.distributions := by
  intro u amount receipt now s
  refine ⟨?_, ?_, ?_, ?_⟩
  · unfold walletBalance
    cases hw : s.wallets.find? (fun x => x.userId == u) with
    | none =>
      have h1 : (addFunds u amount receipt now s).wallets =
          s.wallets ++ [{ userId := u, balance := amount, createdAt := now, updatedAt := now }] := by
        simp [addFunds, hw]
      rw [h1, find?_append_of_none _ _ _ hw,
        find?_cons_pos (fun x : Wallet => x.userId == u)
          { userId := u, balance := amount, createdAt := now, updatedAt := now } []
          (beq_iff_eq.mpr rfl)]
      simp
    | some w =>
      have h1 : (addFunds u amount receipt now s).wallets =
          incWallet u amount now s.wallets := by
        simp [addFunds, hw]
      rw [h1, find?_incWallet u amount now s.wallets w hw]
  · cases hw : s.wallets.find? (fun x => x.userId == u) <;>
      simp [addFunds, hw]
  · cases hw : s.wallets.find? (fun x => x.userId == u) <;>
      simp [addFunds, hw]
  · cases hw : s.wallets.find? (fun x => x.userId == u) <;>
      simp [addFunds, hw]

/-- C5: a second pay call by a principal whose payment is already
completed fails with the already-completed conflict before any write. -/
theorem c5_no_double_payment (doc : Document) (u tid nid : String) (now : Nat)
    (s : PayState) (pd : Distribution) (entry : DistEntry) (p0 : Payment)
    (hm : u ∈ doc.involvedUsers)
    (hd : s.distributions.find? (fun d => d.documentId == doc.idStr) = some pd)
    (he : pd.distributions.find? (fun e => e.userId == u) = some entry)
    (hp : s.payments.find? (fun p => p.documentId == doc.idStr && p.userId == u) = some p0)
    (hc : p0.status = "completed") :
    makeDocumentPayment doc u tid nid now s = Except.error PayErr.alreadyCompleted := by
  unfold makeDocumentPayment
  rw [if_neg (fun hcon => hcon hm)]
  simp only [hd, he, hp]
  rw [if_pos hc]

/-- A concrete two-party agreement state for the payment witnesses: the
distribution splits 50/50, B has already completed a 5-coin payment. -/
def payStateA : PayState :=
  { wallets := [{ userId := "B", balance := 100, createdAt := 0, updatedAt := 0 },
                { userId := "A", balance := 100, createdAt := 0, updatedAt := 0 }]
    payments := [{ pid := "p1", userId := "B", documentId := "doc2", amount := 5,
                   durationDays := 1, splitPercentage := some 50, status := "completed",
                   transactionId := some "t0", createdAt := 0, updatedAt := 0 }]
    transactions := []
    distributions := [{ documentId := "doc2", documentCode := "CODE5678",
                        totalAmount := 10, durationDays := 1,
                        distributions := [{ userId := "A", percentage := 50, amount := 5 },
                                          { userId := "B", percentage := 50, amount := 5 }],
                        createdAt := 0, updatedAt := 0 }] }

/-- Witness for `c5_no_double_payment`: on `payStateA`, B paying again is
rejected with the conflict error. -/
theorem c5_no_double_payment_witness :
    "B" ∈ pendingDoc.involvedUsers ∧
    payStateA.distributions.find? (fun d => d.documentId == pendingDoc.idStr) =
      some (payStateA.distributions.get ⟨0, by decide⟩) ∧
    ((payStateA.distributions.get ⟨0, by decide⟩).distributions.find?
      (fun e => e.userId == "B")) =
      some { userId := "B", percentage := 50, amount := 5 } ∧
    payStateA.payments.find?
      (fun p => p.documentId == pendingDoc.idStr && p.userId == "B") =
      some (payStateA.payments.get ⟨0, by decide⟩) ∧
    (payStateA.payments.get ⟨0, by decide⟩).status = "completed" ∧
    makeDocumentPayment pendingDoc "B" "t1" "p2" 1 payStateA =
      Except.error PayErr.alreadyCompleted :=
  ⟨by decide, rfl, rfl, rfl, rfl,
    c5_no_double_payment pendingDoc "B" "t1" "p2" 1 payStateA
      (payStateA.distributions.get ⟨0, by decide⟩)
      { userId := "B", percentage := 50, amount := 5 }
      (payStateA.payments.get ⟨0, by decide⟩)
      (by decide) rfl rfl rfl rfl⟩

/-- C6: for a member with a distribution entry of amount `a` and no
completed prior payment: if the wallet balance is below `a` the pay call
fails with an insufficient-funds error reporting both the required amount
and the available balance (and, being an exception, writes nothing);
otherwise it debits the wallet by exactly `a`, upserts the caller's
payment row as completed, and appends exactly one debit transaction
referencing that payment row. -/
theorem c6_pay_exact_settlement (doc : Document) (u tid nid : String) (now : Nat)
    (s : PayState) (pd : Distribution) (entry : DistEntry) (exOpt : Option Payment)
    (w : Wallet)
    (hm : u ∈ doc.involvedUsers)
    (hd : s.distributions.find? (fun d => d.documentId == doc.idStr) = some pd)
    (he : pd.distributions.find? (fun e => e.userId == u) = some entry)
    (hex : s.payments.find? (fun p => p.documentId == doc.idStr && p.userId == u) = exOpt)
    (hnc : ∀ p0, exOpt = some p0 → ¬ p0.status = "completed")
    (hw : s.wallets.find? (fun x => x.userId == u) = some w)
    (hids : (s.payments.map (fun p => p.pid)).Nodup) :
    (w.balance < entry.amount →
      makeDocumentPayment doc u tid nid now s =
        Except.error (PayErr.insufficientFunds entry.amount w.balance)) ∧
    (entry.amount ≤ w.balance →
      ∃ s2 pid2,
        makeDocumentPayment doc u tid nid now s = Except.ok s2 ∧
        walletBalance s2 u = w.balance - entry.amount ∧
        (∃ p2, s2.payments.find? (fun p => p.documentId == doc.idStr && p.userId == u) = some p2 ∧
          p2.status = "completed" ∧ p2.amount = entry.amount ∧ p2.pid = pid2) ∧
        s2.transactions = s.transactions ++
          [{ userId := u, type := "payment", amount := -entry.amount,
             description := payDescription doc.documentCode entry.percentage,
             paymentId := some pid2, paymentReceipt := none, createdAt := now }] ∧
        s2.distributions = s.distributions) := by
  have hred : makeDocumentPayment doc u tid nid now s =
      payCompute doc u tid nid now s pd entry exOpt := by
    unfold makeDocumentPayment
    rw [if_neg (fun hcon => hcon hm)]
    simp only [hd, he, hex]
    cases exOpt with
    | none => rfl
    | some p0 => exact if_neg (hnc p0 rfl)
  have hqnp : ∀ ex2 : Option Payment,
      ((fun p => p.documentId == doc.idStr && p.userId == u)
        (payNewPayment doc u tid nid now pd entry ex2)) = true := by
    intro ex2
    simp [payNewPayment]
  have hwallets : (paySuccessState doc u tid nid now s pd entry exOpt).wallets =
      incWallet u (-entry.amount) now s.wallets := by
    cases exOpt <;> simp [paySuccessState]
  constructor
  · intro hlt
    rw [hred]
    unfold payCompute
    simp only [hw]
    rw [if_pos hlt]
  · intro hge
    rw [hred]
    unfold payCompute
    simp only [hw]
    rw [if_neg (not_lt.mpr hge)]
    refine ⟨paySuccessState doc u tid nid now s pd entry exOpt, payPid nid exOpt,
      rfl, ?_, ?_, rfl, rfl⟩
    · simp only [walletBalance, hwallets,
        find?_incWallet u (-entry.amount) now s.wallets w hw]
      ring
    · refine ⟨payNewPayment doc u tid nid now pd entry exOpt, ?_, rfl, rfl, rfl⟩
      cases exOpt with
      | none =>
        have h2 : (paySuccessState doc u tid nid now s pd entry none).payments =
            s.payments ++ [payNewPayment doc u tid nid now pd entry none] := by
          simp [paySuccessState]
        rw [h2, find?_append_of_none _ _ _ hex]
        exact find?_cons_pos _ _ _ (hqnp none)
      | some p0 =>
        have h2 : (paySuccessState doc u tid nid now s pd entry (some p0)).payments =
            replacePaymentById p0.pid
              (payNewPayment doc u tid nid now pd entry (some p0)) s.payments := by
          simp [paySuccessState]
        rw [h2]
        exact find?_replacePaymentById _ s.payments p0 _ hex (hqnp (some p0)) hids

/-- Witness for `c6_pay_exact_settlement`: principal A (wallet balance
100, owes 5, no prior payment row) on the concrete state. -/
theorem c6_pay_exact_settlement_witness :
    "A" ∈ pendingDoc.involvedUsers ∧
    payStateA.distributions.find? (fun d => d.documentId == pendingDoc.idStr) =
      some (payStateA.distributions.get ⟨0, by decide⟩) ∧
    ((payStateA.distributions.get ⟨0, by decide⟩).distributions.find?
      (fun e => e.userId == "A")) =
      some { userId := "A", percentage := 50, amount := 5 } ∧
    payStateA.payments.find?
      (fun p => p.documentId == pendingDoc.idStr && p.userId == "A") = none ∧
    payStateA.wallets.find? (fun x => x.userId == "A") =
      some { userId := "A", balance := 100, createdAt := 0, updatedAt := 0 } ∧
    (payStateA.payments.map (fun p => p.pid)).Nodup ∧
    ((({ userId := "A", balance := 100, createdAt := 0, updatedAt := 0 } : Wallet).balance <
        ({ userId := "A", percentage := 50, amount := 5 } : DistEntry).amount →
      makeDocumentPayment pendingDoc "A" "t1" "p2" 1 payStateA =
        Except.error (PayErr.insufficientFunds
          ({ userId := "A", percentage := 50, amount := 5 } : DistEntry).amount
          ({ userId := "A", balance := 100, createdAt := 0, updatedAt := 0 } : Wallet).balance)) ∧
    (({ userId := "A", percentage := 50, amount := 5 } : DistEntry).amount ≤
        ({ userId := "A", balance := 100, createdAt := 0, updatedAt := 0 } : Wallet).balance →
      ∃ s2 pid2,
        makeDocumentPayment pendingDoc "A" "t1" "p2" 1 payStateA = Except.ok s2 ∧
        walletBalance s2 "A" =
          ({ userId := "A", balance := 100, createdAt := 0, updatedAt := 0 } : Wallet).balance -
            ({ userId := "A", percentage := 50, amount := 5 } : DistEntry).amount ∧
        (∃ p2, s2.payments.find?
            (fun p => p.documentId == pendingDoc.idStr && p.userId == "A") = some p2 ∧
          p2.status = "completed" ∧
          p2.amount = ({ userId := "A", percentage := 50, amount := 5 } : DistEntry).amount ∧
          p2.pid = pid2) ∧
        s2.transactions = payStateA.transactions ++
          [{ userId := "A", type := "payment",
             amount := -({ userId := "A", percentage := 50, amount := 5 } : DistEntry).amount,
             description := payDescription pendingDoc.documentCode
               ({ userId := "A", percentage := 50, amount := 5 } : DistEntry).percentage,
             paymentId := some pid2, paymentReceipt := none, createdAt := 1 }] ∧
        s2.distributions = payStateA.distributions)) :=
  ⟨by decide, rfl, rfl, rfl, rfl, by decide,
    c6_pay_exact_settlement pendingDoc "A" "t1" "p2" 1 payStateA
      (payStateA.distributions.get ⟨0, by decide⟩)
      { userId := "A", percentage := 50, amount := 5 }
      none
      { userId := "A", balance := 100, createdAt := 0, updatedAt := 0 }
      (by decide) rfl rfl rfl (fun p0 h => nomatch h) rfl (by decide)⟩

/-- Helper lemma: after an upsert keyed on the document id, `find?` for
that id returns the new distribution. -/
theorem find?_upsertDistribution (did : String) (nd : Distribution)
    (hnd : nd.documentId = did) (ds : List Distribution) :
    (upsertDistribution did nd ds).find? (fun d => d.documentId == did) = some nd := by
  induction ds with
  | nil =>
    rw [upsertDistribution]
    exact find?_cons_pos (fun d : Distribution => d.documentId == did) nd []
      (beq_iff_eq.mpr hnd)
  | cons d ds ih =>
    by_cases h : d.documentId = did
    · rw [upsertDistribution, if_pos h]
      exact find?_cons_pos (fun d : Distribution => d.documentId == did) nd ds
        (beq_iff_eq.mpr hnd)
    · rw [upsertDistribution, if_neg h,
        find?_cons_neg (fun d : Distribution => d.documentId == did) d
          (upsertDistribution did nd ds) (by simp [h])]
      exact ih

/-- Helper lemma: when the store held at most one distribution for the
document id (the unique-key invariant), the upsert leaves exactly the new
one: distributions are replaced, not accumulated. -/
theorem filter_upsertDistribution (did : String) (nd : Distribution)
    (hnd : nd.documentId = did) (ds : List Distribution)
    (hlen : (ds.filter (fun d => d.documentId == did)).length ≤ 1) :
    (upsertDistribution did nd ds).filter (fun d => d.documentId == did) = [nd] := by
  induction ds with
  | nil => simp [upsertDistribution, beq_iff_eq.mpr hnd]
  | cons d ds ih =>
    by_cases h : d.documentId = did
    · rw [upsertDistribution, if_pos h]
      have hd1 : (ds.filter (fun d => d.documentId == did)) = [] := by
        rw [List.filter_cons_of_pos (by simp [h])] at hlen
        simp only [List.length_cons] at hlen
        exact List.length_eq_zero.mp (Nat.le_zero.mp (Nat.le_of_succ_le_succ hlen))
      rw [List.filter_cons_of_pos (by simp [hnd]), hd1]
    · rw [upsertDistribution, if_neg h,
        List.filter_cons_of_neg (by simp [h])]
      apply ih
      rwa [List.filter_cons_of_neg (by simp [h])] at hlen

/-- C7: for a setup call by the primary (on a store satisfying the
unique-distribution-per-document invariant): when the percentages sum more
than 0.01 away from 100, or when some listed principal is not involved,
the call fails with the corresponding validation error before any write;
otherwise it succeeds and the stored distribution for the agreement is
exactly the new one — the prior one is replaced, never accumulated — with
payments, wallets and transactions untouched. -/
theorem c7_setup_distribution_validation (doc : Document) (caller : String)
    (entries : List DistEntry) (totalAmount : ℚ) (durationDays now : Nat)
    (s : PayState)
    (hc : doc.primaryUser = caller)
    (hu : (s.distributions.filter (fun d => d.documentId == doc.idStr)).length ≤ 1) :
    (1 / 100 < |(entries.map (fun e => e.percentage)).sum - 100| →
      setupPaymentDistribution doc caller entries totalAmount durationDays now s =
        Except.error (SetupErr.invalidPercentage ((entries.map (fun e => e.percentage)).sum))) ∧
    (|(entries.map (fun e => e.percentage)).sum - 100| ≤ 1 / 100 →
      ¬ (∀ e ∈ entries, e.userId ∈ doc.involvedUsers) →
      setupPaymentDistribution doc caller entries totalAmount durationDays now s =
        Except.error SetupErr.userNotInvolved) ∧
    (|(entries.map (fun e => e.percentage)).sum - 100| ≤ 1 / 100 →
      (∀ e ∈ entries, e.userId ∈ doc.involvedUsers) →
      ∃ s2, setupPaymentDistribution doc caller entries totalAmount durationDays now s =
          Except.ok s2 ∧
        s2.distributions.find? (fun d => d.documentId == doc.idStr) =
          some { documentId := doc.idStr, documentCode := doc.documentCode,
                 totalAmount := totalAmount, durationDays := durationDays,
                 distributions := entries, createdAt := now, updatedAt := now } ∧
        s2.distributions.filter (fun d => d.documentId == doc.idStr) =
          [{ documentId := doc.idStr, documentCode := doc.documentCode,
             totalAmount := totalAmount, durationDays := durationDays,
             distributions := entries, createdAt := now, updatedAt := now }] ∧
        s2.payments = s.payments ∧ s2.wallets = s.wallets ∧
        s2.transactions = s.transactions) := by
  have hne : ¬ (doc.primaryUser ≠ caller) := fun h => h hc
  refine ⟨?_, ?_, ?_⟩
  · intro h1
    unfold setupPaymentDistribution
    rw [if_neg hne, if_pos h1]
  · intro h1 h2
    unfold setupPaymentDistribution
    rw [if_neg hne, if_neg (not_lt.mpr h1), if_pos h2]
  · intro h1 h2
    unfold setupPaymentDistribution
    rw [if_neg hne, if_neg (not_lt.mpr h1), if_neg (fun h => h h2)]
    exact ⟨_, rfl,
      find?_upsertDistribution doc.idStr _ rfl s.distributions,
      filter_upsertDistribution doc.idStr _ rfl s.distributions hu,
      rfl, rfl, rfl⟩

/-- Witness for `c7_setup_distribution_validation`: the primary sets up a
valid 50/50 split over the two members of the concrete pending document. -/
theorem c7_setup_distribution_validation_witness :
    pendingDoc.primaryUser = "A" ∧
    (payStateA.distributions.filter (fun d => d.documentId == pendingDoc.idStr)).length ≤ 1 ∧
    ((1 / 100 <
        |(([{ userId := "A", percentage := 60, amount := 6 },
            { userId := "B", percentage := 40, amount := 4 }] :
              List DistEntry).map (fun e => e.percentage)).sum - 100| →
      setupPaymentDistribution pendingDoc "A"
          [{ userId := "A", percentage := 60, amount := 6 },
           { userId := "B", percentage := 40, amount := 4 }] 10 1 5 payStateA =
        Except.error (SetupErr.invalidPercentage
          ((([{ userId := "A", percentage := 60, amount := 6 },
              { userId := "B", percentage := 40, amount := 4 }] :
                List DistEntry).map (fun e => e.percentage)).sum))) ∧
    (|(([{ userId := "A", percentage := 60, amount := 6 },
         { userId := "B", percentage := 40, amount := 4 }] :
           List DistEntry).map (fun e => e.percentage)).sum - 100| ≤ 1 / 100 →
      ¬ (∀ e ∈ ([{ userId := "A", percentage := 60, amount := 6 },
                 { userId := "B", percentage := 40, amount := 4 }] : List DistEntry),
          e.userId ∈ pendingDoc.involvedUsers) →
      setupPaymentDistribution pendingDoc "A"
          [{ userId := "A", percentage := 60, amount := 6 },
           { userId := "B", percentage := 40, amount := 4 }] 10 1 5 payStateA =
        Except.error SetupErr.userNotInvolved) ∧
    (|(([{ userId := "A", percentage := 60, amount := 6 },
         { userId := "B", percentage := 40, amount := 4 }] :
           List DistEntry).map (fun e => e.percentage)).sum - 100| ≤ 1 / 100 →
      (∀ e ∈ ([{ userId := "A", percentage := 60, amount := 6 },
               { userId := "B", percentage := 40, amount := 4 }] : List DistEntry),
          e.userId ∈ pendingDoc.involvedUsers) →
      ∃ s2, setupPaymentDistribution pendingDoc "A"
          [{ userId := "A", percentage := 60, amount := 6 },
           { userId := "B", percentage := 40, amount := 4 }] 10 1 5 payStateA =
          Except.ok s2 ∧
        s2.distributions.find? (fun d => d.documentId == pendingDoc.idStr) =
          some { documentId := pendingDoc.idStr, documentCode := pendingDoc.documentCode,
                 totalAmount := 10, durationDays := 1,
                 distributions := [{ userId := "A", percentage := 60, amount := 6 },
                                   { userId := "B", percentage := 40, amount := 4 }],
                 createdAt := 5, updatedAt := 5 } ∧
        s2.distributions.filter (fun d => d.documentId == pendingDoc.idStr) =
          [{ documentId := pendingDoc.idStr, documentCode := pendingDoc.documentCode,
             totalAmount := 10, durationDays := 1,
             distributions := [{ userId := "A", percentage := 60, amount := 6 },
                               { userId := "B", percentage := 40, amount := 4 }],
             createdAt := 5, updatedAt := 5 }] ∧
        s2.payments = payStateA.payments ∧ s2.wallets = payStateA.wallets ∧
        s2.transactions = payStateA.transactions)) :=
  ⟨rfl, by decide,
    c7_setup_distribution_validation pendingDoc "A"
      [{ userId := "A", percentage := 60, amount := 6 },
       { userId := "B", percentage := 40, amount := 4 }] 10 1 5 payStateA
      rfl (by decide)⟩

/-! ## Hash chain (`app/utils/blockchain.py`)

`SimpleBlockchain.calculate_hash(block)` is
`hashlib.sha256(json.dumps(block, sort_keys=True).encode()).hexdigest()`.
SHA-256 is implemented below over `Nat` bytes (32-bit words reduced mod
2^32); `json.dumps(..., sort_keys=True)` is implemented for the exact
dictionary shapes the module serializes, with their keys emitted in the
sorted order `sort_keys=True` produces and the default `", "` / `": "`
separators. -/

/-- Hex digit (lower case) for a value below 16. -/
def hexDigit (n : Nat) : Char :=
  if n < 10 then Char.ofNat (48 + n) else Char.ofNat (87 + n % 16)

/-- Four hex digits, as in a JSON `\uXXXX` escape. -/
def hex4 (n : Nat) : String :=
  String.mk [hexDigit (n / 4096 % 16), hexDigit (n / 256 % 16),
             hexDigit (n / 16 % 16), hexDigit (n % 16)]

/-- JSON escaping of one character, following `json.dumps` with its
default `ensure_ascii=True` (characters beyond the BMP would need
surrogate pairs; the module only ever serializes ASCII ids, paths and
ISO timestamps). -/
def escapeChar (c : Char) : String :=
  if c = Char.ofNat 34 then String.mk [Char.ofNat 92, Char.ofNat 34]
  else if c = Char.ofNat 92 then String.mk [Char.ofNat 92, Char.ofNat 92]
  else if c = Char.ofNat 10 then String.mk [Char.ofNat 92, Char.ofNat 110]
  else if c = Char.ofNat 9 then String.mk [Char.ofNat 92, Char.ofNat 116]
  else if c = Char.ofNat 13 then String.mk [Char.ofNat 92, Char.ofNat 114]
  else if c.toNat < 32 ∨ 127 ≤ c.toNat then String.mk [Char.ofNat 92, Char.ofNat 117] ++ hex4 c.toNat
  else String.singleton c

/-- JSON escaping of a whole string body. -/
def escapeJson (s : String) : String := String.join (s.data.map escapeChar)

/-- A JSON string literal. -/
def dumpsStr (s : String) : String := "\"" ++ escapeJson s ++ "\""

/-- A JSON array of strings. -/
def dumpsStrList (xs : List String) : String :=
  "[" ++ String.intercalate ", " (xs.map dumpsStr) ++ "]"

/-- UTF-8 encoding of one character as `Nat` bytes. -/
def utf8EncodeChar (c : Char) : List Nat :=
  let n := c.toNat
  if n < 128 then [n]
  else if n < 2048 then [192 + n / 64, 128 + n % 64]
  else if n < 65536 then [224 + n / 4096, 128 + (n / 64) % 64, 128 + n % 64]
  else [240 + n / 262144, 128 + (n / 4096) % 64, 128 + (n / 64) % 64, 128 + n % 64]

/-- UTF-8 encoding of a string, i.e. Python's `str.encode()`. -/
def utf8Encode (s : String) : List Nat := (s.data.map utf8EncodeChar).flatten

/-- Reduction to a 32-bit word. -/
def w32 (n : Nat) : Nat := n % 4294967296

/-- Right rotation of a 32-bit word. -/
def rotr32 (k x : Nat) : Nat := w32 ((x >>> k) ||| (x <<< (32 - k)))

/-- SHA-256 `Ch` function. -/
def shaCh (x y z : Nat) : Nat := (x &&& y) ^^^ ((x ^^^ 4294967295) &&& z)

/-- SHA-256 `Maj` function. -/
def shaMaj (x y z : Nat) : Nat := (x &&& y) ^^^ (x &&& z) ^^^ (y &&& z)

/-- SHA-256 big sigma 0. -/
def bigSigma0 (x : Nat) : Nat := rotr32 2 x ^^^ rotr32 13 x ^^^ rotr32 22 x

/-- SHA-256 big sigma 1. -/
def bigSigma1 (x : Nat) : Nat := rotr32 6 x ^^^ rotr32 11 x ^^^ rotr32 25 x

/-- SHA-256 small sigma 0. -/
def smallSigma0 (x : Nat) : Nat := rotr32 7 x ^^^ rotr32 18 x ^^^ (x >>> 3)

/-- SHA-256 small sigma 1. -/
def smallSigma1 (x : Nat) : Nat := rotr32 17 x ^^^ rotr32 19 x ^^^ (x >>> 10)

/-- SHA-256 round constants (the 64 words, grouped by rounds 0-7, 8-15,
and so on). -/
def shaK : List Nat := List.flatten
  [[0x428a2f98, 0x71374491, 0xb5c0fbcf, 0xe9b5dba5, 0x3956c25b, 0x59f111f1, 0x923f82a4, 0xab1c5ed5],
   [0xd807aa98, 0x12835b01, 0x243185be, 0x550c7dc3, 0x72be5d74, 0x80deb1fe, 0x9bdc06a7, 0xc19bf174],
   [0xe49b69c1, 0xefbe4786, 0x0fc19dc6, 0x240ca1cc, 0x2de92c6f, 0x4a7484aa, 0x5cb0a9dc, 0x76f988da],
   [0x983e5152, 0xa831c66d, 0xb00327c8, 0xbf597fc7, 0xc6e00bf3, 0xd5a79147, 0x06ca6351, 0x14292967],
   [0x27b70a85, 0x2e1b2138, 0x4d2c6dfc, 0x53380d13, 0x650a7354, 0x766a0abb, 0x81c2c92e, 0x92722c85],
   [0xa2bfe8a1, 0xa81a664b, 0xc24b8b70, 0xc76c51a3, 0xd192e819, 0xd6990624, 0xf40e3585, 0x106aa070],
   [0x19a4c116, 0x1e376c08, 0x2748774c, 0x34b0bcb5, 0x391c0cb3, 0x4ed8aa4a, 0x5b9cca4f, 0x682e6ff3],
   [0x748f82ee, 0x78a5636f, 0x84c87814, 0x8cc70208, 0x90befffa, 0xa4506ceb, 0xbef9a3f7, 0xc67178f2]]

/-- SHA-256 initial hash state. -/
def shaH0 : List Nat :=
  [0x6a09e667, 0xbb67ae85, 0x3c6ef372, 0xa54ff53a, 0x510e527f, 0x9b05688c, 0x1f83d9ab, 0x5be0cd19]

/-- Big-endian bytes of a number (most significant first). -/
def beBytes : Nat → Nat → List Nat
  | 0, _ => []
  | k + 1, n => beBytes k (n / 256) ++ [n % 256]

/-- SHA-256 padding: append 0x80, zero bytes to 56 mod 64, then the bit
length as 8 big-endian bytes. -/
def sha256Pad (msg : List Nat) : List Nat :=
  let len := msg.length
  let padZeros := (64 - (len + 9) % 64) % 64
  msg ++ [128] ++ List.replicate padZeros 0 ++ beBytes 8 (8 * len)

/-- Group bytes into big-endian 32-bit words. -/
def toWords : List Nat → List Nat
  | b0 :: b1 :: b2 :: b3 :: rest =>
    (((b0 * 256 + b1) * 256 + b2) * 256 + b3) :: toWords rest
  | _ => []

/-- Extend the 16-word message schedule by `n` further words. -/
def extSched : Nat → List Nat → List Nat
  | 0, ws => ws
  | n + 1, ws =>
    let t := ws.length
    let w := w32 (smallSigma1 (ws.getD (t - 2) 0) + ws.getD (t - 7) 0 +
      smallSigma0 (ws.getD (t - 15) 0) + ws.getD (t - 16) 0)
    extSched n (ws ++ [w])

/-- The 64 SHA-256 compression rounds over paired (constant, schedule)
words. -/
def compressRounds : List (Nat × Nat) →
    Nat × Nat × Nat × Nat × Nat × Nat × Nat × Nat →
    Nat × Nat × Nat × Nat × Nat × Nat × Nat × Nat
  | [], st => st
  | (k, wv) :: rest, (a, b, c, d, e, f, g, h) =>
    let t1 := w32 (h + bigSigma1 e + shaCh e f g + k + wv)
    let t2 := w32 (bigSigma0 a + shaMaj a b c)
    compressRounds rest (w32 (t1 + t2), a, b, c, w32 (d + t1), e, f, g)

/-- Process one 64-byte chunk against the running hash state. -/
def processChunk (hs : List Nat) (chunk : List Nat) : List Nat :=
  let ws := extSched 48 (toWords chunk)
  match hs with
  | [h0, h1, h2, h3, h4, h5, h6, h7] =>
    match compressRounds (shaK.zip ws) (h0, h1, h2, h3, h4, h5, h6, h7) with
    | (a, b, c, d, e, f, g, h) =>
      [w32 (h0 + a), w32 (h1 + b), w32 (h2 + c), w32 (h3 + d),
       w32 (h4 + e), w32 (h5 + f), w32 (h6 + g), w32 (h7 + h)]
  | _ => hs

/-- Fold the hash state over the given number of 64-byte chunks. -/
def processChunks : Nat → List Nat → List Nat → List Nat
  | 0, hs, _ => hs
  | n + 1, hs, bytes => processChunks n (processChunk hs (bytes.take 64)) (bytes.drop 64)

/-- Lower-case hex rendering of one 32-bit word. -/
def word8Hex (n : Nat) : String :=
  String.mk [hexDigit (n / 268435456 % 16), hexDigit (n / 16777216 % 16),
             hexDigit (n / 1048576 % 16), hexDigit (n / 65536 % 16),
             hexDigit (n / 4096 % 16), hexDigit (n / 256 % 16),
             hexDigit (n / 16 % 16), hexDigit (n % 16)]

/-- SHA-256 hex digest of a byte list, i.e. Python's
`hashlib.sha256(bytes).hexdigest()`. -/
def sha256Hex (msg : List Nat) : String :=
  let padded := sha256Pad msg
  String.join ((processChunks (padded.length / 64) shaH0 padded).map word8Hex)

set_option maxRecDepth 200000 in
set_option maxHeartbeats 1000000 in
/-- Sanity check of the SHA-256 implementation against the two standard
test vectors (FIPS 180-2 appendix and the empty message). -/
theorem sha256Hex_standard_vectors :
    sha256Hex (utf8Encode "abc") =
      "ba7816bf8f01cfea414140de5dae2223b00361a396177a9cb410ff61f20015ad" ∧
    sha256Hex (utf8Encode "") =
      "e3b0c44298fc1c149afbf4c8996fb92427ae41e4649b934ca495991b7852b855" :=
  ⟨rfl, rfl⟩

/-- The payload `add_to_blockchain` appends: the `document_data` dict
`{"document_id": ..., "files": [...], "timestamp": ..., "type":
"document_finalization"}`. -/
structure DocumentData where
  document_id : String
  files : List String
  timestamp : String
  type : String
deriving Repr, DecidableEq

/-- The `data` field of a block: the genesis payload is the literal string
`"Genesis Block"`; every block appended by this repository carries a
`DocumentData` dict (`add_to_blockchain` is `add_block`'s only caller). -/
inductive BlockData where
  | genesisData
  | docData (d : DocumentData)
deriving Repr, DecidableEq

/-- `json.dumps` of a block's `data` value. -/
def dumpsData : BlockData → String
  | .genesisData => dumpsStr "Genesis Block"
  | .docData d =>
    "\x7b" ++ "\"document_id\": " ++ dumpsStr d.document_id ++
    ", \"files\": " ++ dumpsStrList d.files ++
    ", \"timestamp\": " ++ dumpsStr d.timestamp ++
    ", \"type\": " ++ dumpsStr d.type ++ "\x7d"

/-- One block of the chain: `{index, timestamp, data, previous_hash, hash}`. -/
structure Block where
  index : Nat
  timestamp : String
  data : BlockData
  previousHash : String
  hash : String
deriving Repr, DecidableEq

/-- `json.dumps(block, sort_keys=True)` for the block dict as it stands
inside `add_block`, before the `hash` key is inserted: keys in sorted
order are data, index, previous_hash, timestamp. -/
def serializeBlockNoHash (b : Block) : String :=
  "\x7b" ++ "\"data\": " ++ dumpsData b.data ++
  ", \"index\": " ++ toString b.index ++
  ", \"previous_hash\": " ++ dumpsStr b.previousHash ++
  ", \"timestamp\": " ++ dumpsStr b.timestamp ++ "\x7d"

/-- `json.dumps(block, sort_keys=True)` for a stored block, whose dict
includes the `hash` key: keys in sorted order are data, hash, index,
previous_hash, timestamp. -/
def serializeBlockWithHash (b : Block) : String :=
  "\x7b" ++ "\"data\": " ++ dumpsData b.data ++
  ", \"hash\": " ++ dumpsStr b.hash ++
  ", \"index\": " ++ toString b.index ++
  ", \"previous_hash\": " ++ dumpsStr b.previousHash ++
  ", \"timestamp\": " ++ dumpsStr b.timestamp ++ "\x7d"

/-- `SimpleBlockchain.calculate_hash`: SHA-256 hex digest of the
serialized dict. -/
def calculate_hash (serialized : String) : String := sha256Hex (utf8Encode serialized)

/-- `create_genesis_block`: index 0, previous_hash "0", hash "0". -/
def createGenesisBlock (ts : String) : Block :=
  { index := 0, timestamp := ts, data := .genesisData, previousHash := "0", hash := "0" }

/-- `SimpleBlockchain.add_block(data)`: build the new block (index =
current length, previous_hash = latest stored hash), hash the dict while
it has no `hash` key yet, store the hash on the block, append, and return
the hash. -/
def add_block (chain : List Block) (data : BlockData) (ts : String) :
    List Block × String :=
  let latest := chain.getLastD
    { index := 0, timestamp := "", data := .genesisData, previousHash := "", hash := "" }
  let pre : Block :=
    { index := chain.length, timestamp := ts, data := data,
      previousHash := latest.hash, hash := "" }
  let h := calculate_hash (serializeBlockNoHash pre)
  (chain ++ [{ pre with hash := h }], h)

/-- Inner loop of `verify_blockchain_integrity` over consecutive block
pairs, starting from index 1: the stored hash is compared against
`calculate_hash(current_block)` — the stored block, whose dict now
CONTAINS the `hash` key — and the link is compared against the previous
block's hash. -/
def verifyFrom : Block → List Block → Bool
  | _, [] => true
  | prev, b :: rest =>
    if b.hash ≠ calculate_hash (serializeBlockWithHash b) then false
    else if b.previousHash ≠ prev.hash then false
    else verifyFrom b rest

/-- `verify_blockchain_integrity()`. -/
def verify_blockchain_integrity : List Block → Bool
  | [] => true
  | g :: rest => verifyFrom g rest

/-- The genesis block with a fixed creation timestamp. -/
def zGenesis : Block := createGenesisBlock "2024-01-01T00:00:00+00:00"

/-- The document payload of the single finalization recorded in the
scenario chain. -/
def zPayload : BlockData :=
  .docData { document_id := "doc1"
             files := ["/uploads/documents/final.pdf"]
             timestamp := "2024-01-01T00:00:01+00:00"
             type := "document_finalization" }

/-- The chain after one `add_block` call on a fresh chain. -/
def zChain1 : List Block :=
  (add_block [zGenesis] zPayload "2024-01-01T00:00:01+00:00").1

set_option maxRecDepth 200000 in
set_option maxHeartbeats 2000000 in
/-- C1: on the untampered chain produced by one `add_block` call, the
link to the genesis block is intact and the stored hash is exactly the
digest `add_block` computed (over the dict without its `hash` key), yet
`verify_blockchain_integrity` returns false: it recomputes the digest over
the stored block dict, which now includes the `hash` key.  The claim's
"verify returns true after any sequence of add calls" therefore fails on
every chain with at least one added block (it holds only for the bare
genesis chain, shown first). -/
theorem c1_verify_rejects_untampered_chain :
    verify_blockchain_integrity [zGenesis] = true ∧
    (zChain1.getD 1 zGenesis).previousHash = zGenesis.hash ∧
    (zChain1.getD 1 zGenesis).hash =
      calculate_hash (serializeBlockNoHash (zChain1.getD 1 zGenesis)) ∧
    (zChain1.getD 1 zGenesis).hash ≠
      calculate_hash (serializeBlockWithHash (zChain1.getD 1 zGenesis)) ∧
    verify_blockchain_integrity zChain1 = false := by
  refine ⟨rfl, rfl, ?_, ?_, ?_⟩
  · decide
  · decide
  · decide

end Zygn
